import Mathlib

/-!
Shallow embedding of `src/converter.py` (viralbox link-converter bot).

The per-message pipeline `process_message` is embedded as a pure function
over an explicit store (links collection, user API keys, user settings),
a message record, and an environment that supplies the result of each
outbound shortening HTTP call.  Outbound Telegram sends are collected in
an output list; database lookups, shortening calls and inserts performed
by the URL loop are collected in an event trace.
-/

/-- ASCII whitespace as recognised by Python's `str.split` / `str.strip`
and the regex class `\s` (the messages handled here use only these). -/
def isPySpace (c : Char) : Bool :=
  c = ' ' || c = '\t' || c = '\n' || c = '\r' || c = '\x0b' || c = '\x0c'

/-- Python truthiness of an optional string: `None` and `""` are falsy. -/
def pyTruthy : Option String → Bool
  | none => false
  | some s => !s.isEmpty

/-- Python `a or b` on two optional strings: the first truthy operand,
otherwise the second operand as-is. -/
def pyOr (a b : Option String) : Option String :=
  if pyTruthy a then a else b

/-- Python `t.startswith(pre)`. -/
def startswith (pre t : String) : Bool :=
  pre.data.isPrefixOf t.data

/-- Python `t.strip()`: remove leading and trailing whitespace. -/
def pyStrip (t : String) : String :=
  ⟨((t.data.dropWhile isPySpace).reverse.dropWhile isPySpace).reverse⟩

/-- Python `t.split(maxsplit=1)`: at most two fields, splitting on the
first run of whitespace; the second field keeps its trailing whitespace. -/
def pySplit1 (t : String) : List String :=
  let l := t.data.dropWhile isPySpace
  if l.isEmpty then []
  else
    let tok := l.takeWhile (fun c => !(isPySpace c))
    let rest := (l.dropWhile (fun c => !(isPySpace c))).dropWhile isPySpace
    if rest.isEmpty then [⟨tok⟩] else [⟨tok⟩, ⟨rest⟩]

/-- First whitespace-delimited token of a text (used to state the spec's
claimed command-dispatch condition). -/
def first_token (t : String) : String :=
  ⟨(t.data.dropWhile isPySpace).takeWhile (fun c => !(isPySpace c))⟩

/-- Model of Python `s.replace(old, new)` for a non-empty pattern:
replace every non-overlapping occurrence, scanning left to right and not
rescanning replaced text.  The pipeline only substitutes extracted URLs,
which are never empty. -/
def pyReplaceAux (old new : List Char) (s : List Char) : List Char :=
  match s with
  | [] => []
  | c :: rest =>
    if h : old ≠ [] ∧ old.isPrefixOf (c :: rest) = true then
      new ++ pyReplaceAux old new ((c :: rest).drop old.length)
    else
      c :: pyReplaceAux old new rest
termination_by s.length
decreasing_by
  · have hlen : 1 ≤ old.length := by
      cases old with
      | nil => exact absurd rfl h.1
      | cons a as => simp
    simp only [List.length_drop, List.length_cons]
    omega
  · simp

/-- String wrapper for `pyReplaceAux`. -/
def pyReplace (s old new : String) : String :=
  ⟨pyReplaceAux old.data new.data s.data⟩

/-- Source `replace_urls_in_text`: fold the URL mapping over the text,
replacing each old URL by its new short URL. -/
def replace_urls_in_text (text : String) (url_mapping : List (String × String)) : String :=
  if text.isEmpty then text
  else url_mapping.foldl (fun acc p => pyReplace acc p.fst p.snd) text

/-- Python dict update `d[k] = v` on an insertion-ordered association
list: update in place when the key exists, append otherwise. -/
def dictSet (m : List (String × String)) (k v : String) : List (String × String) :=
  if m.any (fun p => p.fst == k) then
    m.map (fun p => if p.fst == k then (k, v) else p)
  else m ++ [(k, v)]

/-- Match of the regex `(https?://[^\s]+)` anchored at the head of the
character list: returns the matched URL and the remaining characters
after the match. -/
def matchUrlAt (l : List Char) : Option (List Char × List Char) :=
  if ("https://".data).isPrefixOf l then
    let rest := l.drop 8
    let body := rest.takeWhile (fun c => !(isPySpace c))
    if body.isEmpty then none
    else some ("https://".data ++ body, rest.drop body.length)
  else if ("http://".data).isPrefixOf l then
    let rest := l.drop 7
    let body := rest.takeWhile (fun c => !(isPySpace c))
    if body.isEmpty then none
    else some ("http://".data ++ body, rest.drop body.length)
  else none

/-- Scan of `re.findall(r"(https?://[^\s]+)", text)`: non-overlapping
matches found left to right, advancing one character after a failed
match position.  The fuel argument only bounds the recursion; every
step consumes at least one character, so fuel = length of the input is
always sufficient and the function never hits the fuel floor. -/
def extractUrlsGo (fuel : Nat) (l : List Char) : List (List Char) :=
  match fuel, l with
  | 0, _ => []
  | _, [] => []
  | fuel + 1, c :: rest =>
    match matchUrlAt (c :: rest) with
    | some p => p.fst :: extractUrlsGo fuel p.snd
    | none => extractUrlsGo fuel rest

/-- Source `extract_urls`. -/
def extract_urls (text : String) : List String :=
  if text.isEmpty then []
  else (extractUrlsGo text.data.length text.data).map (fun l => ⟨l⟩)

/-- Default of the `VIRALBOX_DOMAIN` environment variable. -/
def VIRALBOX_DOMAIN : String := "viralbox.in"

/-- Hostname extraction of `urllib.parse.urlparse(url).hostname` for
http/https URLs: the netloc runs up to the first of `/`, `?`, `#`; the
hostname is the part after the last `@`, with any `:port` removed,
lower-cased, and `None` when empty.  (IPv6 bracket syntax and non-ASCII
case folding are not modelled; no URL handled here uses them.) -/
def hostnameOf (url : String) : Option String :=
  let l := url.data
  let afterScheme : Option (List Char) :=
    if ("https://".data).isPrefixOf l then some (l.drop 8)
    else if ("http://".data).isPrefixOf l then some (l.drop 7)
    else none
  match afterScheme with
  | none => none
  | some rest =>
    let netloc := rest.takeWhile (fun c => !(c == '/') && !(c == '?') && !(c == '#'))
    let hostinfo := (netloc.reverse.takeWhile (fun c => !(c == '@'))).reverse
    let host := (hostinfo.takeWhile (fun c => !(c == ':'))).map Char.toLower
    if host.isEmpty then none else some ⟨host⟩

/-- Python substring test `pat in s` on character lists. -/
def containsSub (pat : List Char) : List Char → Bool
  | [] => pat.isEmpty
  | c :: rest => pat.isPrefixOf (c :: rest) || containsSub pat rest

/-- Source `is_viralbox`: substring test `VIRALBOX_DOMAIN in hostname`;
a missing hostname raises inside the `try` and yields `False`. -/
def is_viralbox (url : String) : Bool :=
  match hostnameOf url with
  | none => false
  | some h => containsSub VIRALBOX_DOMAIN.data h.data

/-- Parsed JSON body of a shortener response together with the HTTP
status code of the reply (which the source never consults). -/
structure ShortenResponse where
  httpStatus : Nat
  status : Option String
  shortenedUrl : Option String
  short_url : Option String
  short : Option String
deriving DecidableEq, Repr

/-- Source `short_with_user_token`, given the parsed response of the
HTTP call: on `status == "success"` return
`j.get("shortenedUrl") or j.get("short_url") or j.get("short")`,
otherwise `None`.  The transport-level call itself (and its possible
exception) is supplied by the environment. -/
def short_with_user_token (r : ShortenResponse) : Option String :=
  if r.status = some "success" then
    pyOr r.shortenedUrl (pyOr r.short_url r.short)
  else none

/-- Modelled from the spec: the claimed contract of the shortening
client — a non-2xx HTTP status is a uniform failure, and on success the
result is the first PRESENT field in the order
shortenedUrl, short_url, short. -/
def claimedShorten (r : ShortenResponse) : Option String :=
  if 200 ≤ r.httpStatus ∧ r.httpStatus < 300 ∧ r.status = some "success" then
    (([r.shortenedUrl, r.short_url, r.short].find? Option.isSome).bind id)
  else none

/-- One document of the `links` collection. -/
structure LinkRec where
  longURL : String
  shortURL : String
deriving DecidableEq, Repr

/-- One document of the `user_settings` collection (each field may be
absent). -/
structure SettingsDoc where
  header : Option String
  footer : Option String
  keep_text : Option Bool
deriving DecidableEq, Repr

/-- Settings dictionary returned by `get_user_settings`. -/
structure UserSettings where
  header : Option String
  footer : Option String
  keep_text : Bool
deriving DecidableEq, Repr

/-- Empty settings document created by an upsert. -/
def emptyDoc : SettingsDoc := ⟨none, none, none⟩

/-- The three MongoDB collections. -/
structure Store where
  links : List LinkRec
  user_apis : Int → Option String
  user_settings : Int → Option SettingsDoc

/-- Source `save_api_key`: `update_one({userId}, {$set: …}, upsert=True)`. -/
def save_api_key (m : Int → Option String) (user_id : Int) (apikey : String) :
    Int → Option String :=
  fun u => if u = user_id then some apikey else m u

/-- Source `get_api_key`. -/
def get_api_key (m : Int → Option String) (user_id : Int) : Option String :=
  m user_id

/-- Source `save_user_setting`: `$set` of one field with `upsert=True`;
the field updater is the call site's key/value pair. -/
def save_user_setting (m : Int → Option SettingsDoc) (user_id : Int)
    (f : SettingsDoc → SettingsDoc) : Int → Option SettingsDoc :=
  fun u => if u = user_id then some (f ((m user_id).getD emptyDoc)) else m u

/-- Source `delete_user_setting`: `$unset` of one field WITHOUT upsert —
a missing document stays missing. -/
def delete_user_setting (m : Int → Option SettingsDoc) (user_id : Int)
    (f : SettingsDoc → SettingsDoc) : Int → Option SettingsDoc :=
  fun u => if u = user_id then (m user_id).map f else m u

/-- Source `get_user_settings`: defaults `{None, None, False}` when the
document is missing; `keep_text` defaults to `False` field-wise. -/
def get_user_settings (m : Int → Option SettingsDoc) (user_id : Int) : UserSettings :=
  match m user_id with
  | none => ⟨none, none, false⟩
  | some d => ⟨d.header, d.footer, d.keep_text.getD false⟩

/-- Source `save_converted`: `insert_one` appends a document. -/
def save_converted (links : List LinkRec) (longURL shortURL : String) : List LinkRec :=
  links ++ [⟨longURL, shortURL⟩]

/-- Source `find_long_url`: `find_one({"shortURL": shortURL})` returns
the first matching document in insertion order. -/
def find_long_url (links : List LinkRec) (shortURL : String) : Option String :=
  (links.find? (fun r => r.shortURL == shortURL)).map (fun r => r.longURL)

/-- Recognised media kinds (the source's fixed probe list). -/
inductive MediaKind
  | photo | video | document | audio | voice | animation
deriving DecidableEq, Repr

/-- Media attachment of a message: its kind and the file id the source
extracts (highest-resolution variant for photos). -/
structure Media where
  kind : MediaKind
  file_id : String
deriving DecidableEq, Repr

/-- One inbound Telegram message as consumed by `process_message`. -/
structure Msg where
  chat_id : Int
  user_id : Int
  first_name : Option String
  text : String
  media : Option Media
  caption : String
deriving DecidableEq, Repr

/-- Outbound Telegram calls: `send_message` and `send_media` (whose
caption is omitted when falsy). -/
inductive Outgoing
  | msg (chat_id : Int) (text : String)
  | media (chat_id : Int) (kind : MediaKind) (file_id : String) (caption : Option String)
deriving DecidableEq, Repr

/-- Events of the URL-processing loop: link-store lookup, shortening
HTTP call, link-store insert. -/
inductive Event
  | findLong (url : String)
  | shortenCall (longURL : String)
  | save (longURL shortURL : String)
deriving DecidableEq, Repr

/-- Environment: parsed response of the i-th shortening HTTP call of
this invocation (`none` models a timeout/exception of the call). -/
structure Env where
  responses : Nat → Option ShortenResponse

/-- Result of one shortening call: exceptions yield `None`, otherwise
the body is handed to `short_with_user_token`. -/
def callShorten (env : Env) (i : Nat) : Option String :=
  match env.responses i with
  | none => none
  | some r => short_with_user_token r

/-- Error reply for a URL outside the viralbox domain. -/
def DOMAIN_ERR (url : String) : String :=
  "❌ Only viralbox.in links are supported! (Invalid: " ++ url ++ ")"

/-- Error reply for a URL with no record in the links collection. -/
def NOT_FOUND_ERR (url : String) : String :=
  "❌ This link does not exist in database. (" ++ url ++ ")"

/-- Error reply for a failed shortening call. -/
def CONVERT_ERR (url : String) : String :=
  "❌ Failed to convert link using your API key. (" ++ url ++ ")"

/-- Error reply when no URL is extracted from the text. -/
def NO_URL_ERR : String := "❌ Please send a valid viralbox.in link."

/-- Error reply when the user has no stored API key. -/
def NO_API_ERR : String := "❌ Please set your API key first:\n/set_api <API_KEY>"

/-- Welcome reply of `/start` for a user without an API key. -/
def START_WELCOME (name : String) : String :=
  "👋 Welcome " ++ name ++ " to viralbox.in Bot!\n\n" ++
  "I am Link Converter Bot.\n\n" ++
  "1️⃣ Create an Account on viralbox.in\n" ++
  "2️⃣ Go To 👉 https://viralbox.in/member/tools/api\n" ++
  "3️⃣ Copy your API Key\n" ++
  "4️⃣ Send /set_api <API_KEY>\n" ++
  "5️⃣ Send me any viralbox.in link\n\n" ++
  "📋 Available Commands:\n" ++
  "/set_api - Save your API Key\n" ++
  "/set_header - Add custom header\n" ++
  "/set_footer - Add custom footer\n" ++
  "/keep_text - Keep original text with converted links\n" ++
  "/delete_text - Remove original text, show only converted links\n" ++
  "/delete_header - Remove custom header\n" ++
  "/delete_footer - Remove custom footer\n" ++
  "/help - Get help and support"

/-- Reply of `/help`. -/
def HELP_TEXT : String :=
  "📚 Bot Commands Help:\n\n" ++
  "🔑 /set_api <API_KEY> - Save your viralbox.in API key\n\n" ++
  "📝 /set_header <text> - Add custom header text above links\n" ++
  "Example: /set_header 👇 Download Links 👇\n\n" ++
  "📝 /set_footer <text> - Add custom footer text below links\n" ++
  "Example: /set_footer Join: @viralbox_support\n\n" ++
  "✅ /keep_text - Keep your original message text and replace only links\n\n" ++
  "❌ /delete_text - Show only converted links (with header/footer if set)\n\n" ++
  "🗑️ /delete_header - Remove custom header\n" ++
  "🗑️ /delete_footer - Remove custom footer\n\n" ++
  "💬 For any query contact: @viralbox_support"

/-- State threaded through the per-URL loop of `process_message`. -/
structure LoopState where
  links : List LinkRec
  calls : Nat
  mapping : List (String × String)
  converted : List String
  trace : List Event
deriving DecidableEq, Repr

/-- The `for url in urls:` loop of `process_message`: domain check,
long-URL lookup (Python-falsy result is a miss), shortening call
(Python-falsy result is a failure), then insert and mapping update.
A failure returns the error reply to send; the loop then stops. -/
def processUrls (env : Env) : LoopState → List String → LoopState × Option String
  | ls, [] => (ls, none)
  | ls, url :: rest =>
    if is_viralbox url then
      let ls1 : LoopState := { ls with trace := ls.trace ++ [Event.findLong url] }
      match find_long_url ls.links url with
      | none => (ls1, some (NOT_FOUND_ERR url))
      | some longURL =>
        if longURL.isEmpty then (ls1, some (NOT_FOUND_ERR url))
        else
          let newShort := callShorten env ls.calls
          let ls2 : LoopState :=
            { ls1 with calls := ls.calls + 1,
                       trace := ls1.trace ++ [Event.shortenCall longURL] }
          match newShort with
          | none => (ls2, some (CONVERT_ERR url))
          | some s =>
            if s.isEmpty then (ls2, some (CONVERT_ERR url))
            else
              processUrls env
                { ls2 with links := save_converted ls2.links longURL s,
                           mapping := dictSet ls2.mapping url s,
                           converted := ls2.converted ++ [s],
                           trace := ls2.trace ++ [Event.save longURL s] } rest
    else
      (ls, some (DOMAIN_ERR url))

/-- Result of one pipeline invocation: final store, outbound sends, and
the trace of link-store/shortener events. -/
structure RunResult where
  store : Store
  output : List Outgoing
  trace : List Event

/-- Command dispatch of `process_message`: the nine sequential
`text.startswith(…)` checks, in source order.  `some` means a command
handler ran (its store update and single reply); `none` means fall
through to URL processing. -/
def handleCommand (st : Store) (msg : Msg) : Option (Store × List Outgoing) :=
  let text := msg.text
  let chat_id := msg.chat_id
  let user_id := msg.user_id
  if startswith "/start" text then
    let name := msg.first_name.getD "User"
    if pyTruthy (get_api_key st.user_apis user_id) then
      some (st, [Outgoing.msg chat_id "🔗 Send A Link To Convert !"])
    else
      some (st, [Outgoing.msg chat_id (START_WELCOME name)])
  else if startswith "/help" text then
    some (st, [Outgoing.msg chat_id HELP_TEXT])
  else if startswith "/set_api" text then
    match pySplit1 text with
    | [_, arg] =>
      let apikey := pyStrip arg
      some ({ st with user_apis := save_api_key st.user_apis user_id apikey },
            [Outgoing.msg chat_id "✅ API Key Saved Successfully!"])
    | _ => some (st, [Outgoing.msg chat_id "❌ Correct usage: /set_api <API_KEY>"])
  else if startswith "/set_header" text then
    match pySplit1 text with
    | [_, arg] =>
      let header_text := pyStrip arg
      some ({ st with user_settings := (save_user_setting st.user_settings user_id
                  (fun d => { d with header := some header_text })) },
            [Outgoing.msg chat_id
              ("✅ Header Saved Successfully!\n\n📝 Your Header:\n" ++ header_text)])
    | _ => some (st, [Outgoing.msg chat_id
        "❌ Usage: /set_header <your header text>\n\nExample: /set_header 👇 Download Links 👇"])
  else if startswith "/delete_header" text then
    some ({ st with user_settings := (delete_user_setting st.user_settings user_id
                (fun d => { d with header := none })) },
          [Outgoing.msg chat_id "✅ Header Deleted Successfully!"])
  else if startswith "/set_footer" text then
    match pySplit1 text with
    | [_, arg] =>
      let footer_text := pyStrip arg
      some ({ st with user_settings := (save_user_setting st.user_settings user_id
                  (fun d => { d with footer := some footer_text })) },
            [Outgoing.msg chat_id
              ("✅ Footer Saved Successfully!\n\n📝 Your Footer:\n" ++ footer_text)])
    | _ => some (st, [Outgoing.msg chat_id
        "❌ Usage: /set_footer <your footer text>\n\nExample: /set_footer Join: @viralbox_support"])
  else if startswith "/delete_footer" text then
    some ({ st with user_settings := (delete_user_setting st.user_settings user_id
                (fun d => { d with footer := none })) },
          [Outgoing.msg chat_id "✅ Footer Deleted Successfully!"])
  else if startswith "/keep_text" text then
    some ({ st with user_settings := (save_user_setting st.user_settings user_id
                (fun d => { d with keep_text := some true })) },
          [Outgoing.msg chat_id
            "✅ Keep Text Mode Enabled!\n\n📝 Now your original text will be kept and only links will be replaced."])
  else if startswith "/delete_text" text then
    some ({ st with user_settings := (save_user_setting st.user_settings user_id
                (fun d => { d with keep_text := some false })) },
          [Outgoing.msg chat_id
            "✅ Delete Text Mode Enabled!\n\n📝 Now only converted links (with header/footer) will be shown."])
  else none

/-- The nine command prefixes, in source check order. -/
def commandPrefixes : List String :=
  ["/start", "/help", "/set_api", "/set_header", "/delete_header",
   "/set_footer", "/delete_footer", "/keep_text", "/delete_text"]

/-- A text is treated as a command iff it starts with one of the nine
command prefixes. -/
def isCommandText (t : String) : Bool :=
  commandPrefixes.any (fun c => startswith c t)

/-- Text the pipeline scans for URLs: the caption when the message
carries a recognised media attachment, the message text otherwise. -/
def resolved_text (msg : Msg) : String :=
  match msg.media with
  | some _ => msg.caption
  | none => msg.text

/-- Paragraph filter of replace mode: a header/footer contributes only
when truthy (`if settings["header"]:`). -/
def optPart : Option String → List String
  | none => []
  | some s => if s.isEmpty then [] else [s]

/-- Non-command tail of `process_message`: API-key precondition, media
resolution, URL extraction, the per-URL loop, response assembly
(keep mode vs replace mode) and the final send. -/
def runPipeline (env : Env) (st : Store) (msg : Msg) : RunResult :=
  let user_api := get_api_key st.user_apis msg.user_id
  if !(pyTruthy user_api) then
    ⟨st, [Outgoing.msg msg.chat_id NO_API_ERR], []⟩
  else
    let settings := get_user_settings st.user_settings msg.user_id
    let original_text := resolved_text msg
    let urls := extract_urls original_text
    if urls.isEmpty then
      ⟨st, [Outgoing.msg msg.chat_id NO_URL_ERR], []⟩
    else
      match processUrls env ⟨st.links, 0, [], [], []⟩ urls with
      | (ls, some err) =>
        ⟨{ st with links := ls.links }, [Outgoing.msg msg.chat_id err], ls.trace⟩
      | (ls, none) =>
        let response_text :=
          if settings.keep_text then
            replace_urls_in_text original_text ls.mapping
          else
            String.intercalate "\n\n"
              (optPart settings.header ++ ls.converted ++ optPart settings.footer)
        let out :=
          match msg.media with
          | none => Outgoing.msg msg.chat_id response_text
          | some m =>
            Outgoing.media msg.chat_id m.kind m.file_id
              (if response_text.isEmpty then none else some response_text)
        ⟨{ st with links := ls.links }, [out], ls.trace⟩

/-- Source `process_message`: command dispatch first, then the URL
pipeline. -/
def process_message (env : Env) (st : Store) (msg : Msg) : RunResult :=
  match handleCommand st msg with
  | some (st', out) => ⟨st', out, []⟩
  | none => runPipeline env st msg

/-- Modelled from the spec: the claimed replace-mode assembly, with all
short URLs joined as ONE paragraph, one URL per line. -/
def claimedReplaceReply (header footer : Option String) (shorts : List String) : String :=
  String.intercalate "\n\n"
    ((match header with | some h => [h] | none => []) ++
     [String.intercalate "\n" shorts] ++
     (match footer with | some f => [f] | none => []))

/-- Modelled from the spec: the claimed command argument, "whatever
follows the first whitespace after the command token". -/
def claimedArgAfterFirstWhite (t : String) : String :=
  ⟨(t.data.dropWhile (fun c => !(isPySpace c))).drop 1⟩

/-- Environment whose every shortening call fails (never reached in
command-handling scenarios). -/
def fxEnvNone : Env := ⟨fun _ => none⟩

/-- Links collection holding one record for the inbound short URL. -/
def fxLinks1 : List LinkRec := [⟨"https://long.example/x", "https://viralbox.in/abc"⟩]

/-- API-key collection with a key for user 7. -/
def fxApis : Int → Option String := fun u => if u = 7 then some "KEY" else none

/-- Environment whose every shortening call succeeds with a fixed new
short URL. -/
def fxEnvZzz : Env :=
  ⟨fun _ => some ⟨200, some "success", some "https://viralbox.in/zzz", none, none⟩⟩

/-- The /set_api success reply. -/
def API_SAVED_MSG : String := "✅ API Key Saved Successfully!"

/-- The /set_api usage reply. -/
def API_USAGE_MSG : String := "❌ Correct usage: /set_api <API_KEY>"

/-- The /set_header usage reply. -/
def HEADER_USAGE_MSG : String :=
  "❌ Usage: /set_header <your header text>\n\nExample: /set_header 👇 Download Links 👇"

/-- The /set_footer usage reply. -/
def FOOTER_USAGE_MSG : String :=
  "❌ Usage: /set_footer <your footer text>\n\nExample: /set_footer Join: @viralbox_support"

/-!  Helper lemmas about the embedded operations. -/

theorem isPrefixOf_append_of_ne {p q : List Char} (h : p.isPrefixOf q = false)
    (h2 : q.isPrefixOf p = false) (r : List Char) : p.isPrefixOf (q ++ r) = false := by
  induction p generalizing q with
  | nil => simp at h
  | cons a as ih =>
    cases q with
    | nil => simp at h2
    | cons b bs =>
      simp only [List.cons_append, List.isPrefixOf_cons₂] at h h2 ⊢
      rcases Bool.and_eq_false_iff.mp h with hab | hrest
      · simp [hab]
      · rcases Bool.and_eq_false_iff.mp h2 with hba | hrest2
        · have hab : (a == b) = false := by
            cases hcc : a == b
            · rfl
            · have hceq := eq_of_beq hcc
              subst hceq
              simp at hba
          simp [hab]
        · simp [ih hrest hrest2]

theorem startswith_false_of (c₁ c₂ : String) (hne : c₁.data.isPrefixOf c₂.data = false)
    (hne2 : c₂.data.isPrefixOf c₁.data = false) (t : String) (h : startswith c₂ t = true) :
    startswith c₁ t = false := by
  unfold startswith at h ⊢
  have hp : c₂.data <+: t.data := by
    rw [ ← List.isPrefixOf_iff_prefix]
    exact h
  obtain ⟨r, hr⟩ := hp
  rw [ ← hr]
  exact isPrefixOf_append_of_ne hne hne2 r

theorem handleCommand_none {st : Store} {msg : Msg} (h : isCommandText msg.text = false) :
    handleCommand st msg = none := by
  simp only [isCommandText, commandPrefixes, List.any_cons, List.any_nil,
    Bool.or_eq_false_iff] at h
  obtain ⟨h1, h2, h3, h4, h5, h6, h7, h8, h9, -⟩ := h
  simp [handleCommand, h1, h2, h3, h4, h5, h6, h7, h8, h9]

/-- C8 (amended): the shortener-response handling succeeds (yields a
truthy value) exactly when the parsed body signals status "success" and
at least one of the fields shortenedUrl, short_url, short holds a
non-empty value, in which case the result is the first such TRUTHY field
in that order (present-but-empty fields are skipped); a non-success
status is a uniform failure, and the HTTP status code is never
consulted. -/
theorem C8_shorten_response_contract (r : ShortenResponse) :
    (r.status ≠ some "success" → short_with_user_token r = none) ∧
    (pyTruthy (short_with_user_token r) = true ↔
      (r.status = some "success" ∧
        (pyTruthy r.shortenedUrl = true ∨ pyTruthy r.short_url = true ∨
         pyTruthy r.short = true))) ∧
    (pyTruthy (short_with_user_token r) = true →
      some (short_with_user_token r) =
        [r.shortenedUrl, r.short_url, r.short].find? pyTruthy) ∧
    (∀ n, short_with_user_token { r with httpStatus := n } = short_with_user_token r) := by
  refine ⟨?_, ?_, ?_, fun n => rfl⟩
  · intro h
    simp [short_with_user_token, h]
  · by_cases hs : r.status = some "success"
    · simp only [short_with_user_token, if_pos hs, hs, true_and, pyOr]
      cases ha : pyTruthy r.shortenedUrl
      · cases hb : pyTruthy r.short_url
        · simp [ha, hb]
        · simp [ha, hb]
      · simp [ha]
    · simp [short_with_user_token, hs, pyTruthy]
  · intro h
    by_cases hs : r.status = some "success"
    · simp only [short_with_user_token, if_pos hs, pyOr] at h ⊢
      cases ha : pyTruthy r.shortenedUrl
      · cases hb : pyTruthy r.short_url
        · rw [if_neg (by simp [ha]), if_neg (by simp [hb])] at h
          rw [if_neg (by simp), if_neg (by simp)]
          rw [List.find?_cons_of_neg _ (by simp [ha]),
              List.find?_cons_of_neg _ (by simp [hb]),
              List.find?_cons_of_pos _ h]
        · rw [if_neg (by simp), if_pos rfl]
          rw [List.find?_cons_of_neg _ (by simp [ha]),
              List.find?_cons_of_pos _ hb]
      · rw [if_pos rfl]
        rw [List.find?_cons_of_pos _ ha]
    · simp [short_with_user_token, hs, pyTruthy] at h

/-- C6 (amended): for /set_api, /set_header and /set_footer the
argument is what follows the first whitespace run after the command
token, with surrounding whitespace STRIPPED (it may contain internal
whitespace); when the argument is missing the handler sends exactly one
fixed usage-error reply and performs no store mutation, so a subsequent
read returns the prior state. -/
theorem C6_set_command_arguments (env : Env) (st : Store) (msg : Msg) :
    (startswith "/set_api" msg.text = true →
      ((pySplit1 msg.text).length < 2 →
        process_message env st msg = ⟨st, [Outgoing.msg msg.chat_id API_USAGE_MSG], []⟩) ∧
      (∀ t0 arg, pySplit1 msg.text = [t0, arg] →
        (process_message env st msg).output = [Outgoing.msg msg.chat_id API_SAVED_MSG] ∧
        get_api_key (process_message env st msg).store.user_apis msg.user_id =
          some (pyStrip arg) ∧
        (process_message env st msg).store.user_settings = st.user_settings ∧
        (process_message env st msg).store.links = st.links)) ∧
    (startswith "/set_header" msg.text = true →
      ((pySplit1 msg.text).length < 2 →
        process_message env st msg = ⟨st, [Outgoing.msg msg.chat_id HEADER_USAGE_MSG], []⟩) ∧
      (∀ t0 arg, pySplit1 msg.text = [t0, arg] →
        (process_message env st msg).output =
          [Outgoing.msg msg.chat_id
            ("✅ Header Saved Successfully!\n\n📝 Your Header:\n" ++ pyStrip arg)] ∧
        get_user_settings (process_message env st msg).store.user_settings msg.user_id =
          { get_user_settings st.user_settings msg.user_id with header := some (pyStrip arg) } ∧
        (process_message env st msg).store.user_apis = st.user_apis ∧
        (process_message env st msg).store.links = st.links)) ∧
    (startswith "/set_footer" msg.text = true →
      ((pySplit1 msg.text).length < 2 →
        process_message env st msg = ⟨st, [Outgoing.msg msg.chat_id FOOTER_USAGE_MSG], []⟩) ∧
      (∀ t0 arg, pySplit1 msg.text = [t0, arg] →
        (process_message env st msg).output =
          [Outgoing.msg msg.chat_id
            ("✅ Footer Saved Successfully!\n\n📝 Your Footer:\n" ++ pyStrip arg)] ∧
        get_user_settings (process_message env st msg).store.user_settings msg.user_id =
          { get_user_settings st.user_settings msg.user_id with footer := some (pyStrip arg) } ∧
        (process_message env st msg).store.user_apis = st.user_apis ∧
        (process_message env st msg).store.links = st.links)) := by
  refine ⟨?_, ?_, ?_⟩
  · intro hsw
    have h1 : startswith "/start" msg.text = false :=
      startswith_false_of _ _ (by decide) (by decide) _ hsw
    have h2 : startswith "/help" msg.text = false :=
      startswith_false_of _ _ (by decide) (by decide) _ hsw
    constructor
    · intro hlen
      unfold process_message handleCommand
      simp only [h1, h2, hsw, Bool.false_eq_true, if_false, if_true]
      cases hsp : pySplit1 msg.text with
      | nil => rfl
      | cons a t =>
        cases t with
        | nil => rfl
        | cons b t2 =>
          cases t2 with
          | nil =>
            rw [hsp] at hlen
            simp at hlen
          | cons c t3 => rfl
    · intro t0 arg hsp
      unfold process_message handleCommand
      simp only [h1, h2, hsw, Bool.false_eq_true, if_false, if_true, hsp]
      simp [get_api_key, save_api_key, API_SAVED_MSG]
  · intro hsw
    have h1 : startswith "/start" msg.text = false :=
      startswith_false_of _ _ (by decide) (by decide) _ hsw
    have h2 : startswith "/help" msg.text = false :=
      startswith_false_of _ _ (by decide) (by decide) _ hsw
    have h3 : startswith "/set_api" msg.text = false :=
      startswith_false_of _ _ (by decide) (by decide) _ hsw
    constructor
    · intro hlen
      unfold process_message handleCommand
      simp only [h1, h2, h3, hsw, Bool.false_eq_true, if_false, if_true]
      cases hsp : pySplit1 msg.text with
      | nil => rfl
      | cons a t =>
        cases t with
        | nil => rfl
        | cons b t2 =>
          cases t2 with
          | nil =>
            rw [hsp] at hlen
            simp at hlen
          | cons c t3 => rfl
    · intro t0 arg hsp
      unfold process_message handleCommand
      simp only [h1, h2, h3, hsw, Bool.false_eq_true, if_false, if_true, hsp]
      cases hset : st.user_settings msg.user_id <;>
        simp [get_user_settings, save_user_setting, hset, emptyDoc]
  · intro hsw
    have h1 : startswith "/start" msg.text = false :=
      startswith_false_of _ _ (by decide) (by decide) _ hsw
    have h2 : startswith "/help" msg.text = false :=
      startswith_false_of _ _ (by decide) (by decide) _ hsw
    have h3 : startswith "/set_api" msg.text = false :=
      startswith_false_of _ _ (by decide) (by decide) _ hsw
    have h4 : startswith "/set_header" msg.text = false :=
      startswith_false_of _ _ (by decide) (by decide) _ hsw
    have h5 : startswith "/delete_header" msg.text = false :=
      startswith_false_of _ _ (by decide) (by decide) _ hsw
    constructor
    · intro hlen
      unfold process_message handleCommand
      simp only [h1, h2, h3, h4, h5, hsw, Bool.false_eq_true, if_false, if_true]
      cases hsp : pySplit1 msg.text with
      | nil => rfl
      | cons a t =>
        cases t with
        | nil => rfl
        | cons b t2 =>
          cases t2 with
          | nil =>
            rw [hsp] at hlen
            simp at hlen
          | cons c t3 => rfl
    · intro t0 arg hsp
      unfold process_message handleCommand
      simp only [h1, h2, h3, h4, h5, hsw, Bool.false_eq_true, if_false, if_true, hsp]
      cases hset : st.user_settings msg.user_id <;>
        simp [get_user_settings, save_user_setting, hset, emptyDoc]

/-- C6 counterexample: for the concrete message text containing
trailing whitespace after the argument, `/set_header a ` stores the
STRIPPED header "a", not the raw text "a " that follows the first
whitespace of the message as the claim states. -/
theorem C6_counterexample :
    (process_message fxEnvNone ⟨[], fun _ => none, fun _ => none⟩
        ⟨5, 7, none, "/set_header a ", none, ""⟩).store.user_settings 7 =
      some ⟨some "a", none, none⟩ ∧
    claimedArgAfterFirstWhite "/set_header a " = "a " ∧
    ("a" : String) ≠ "a " := by
  refine ⟨rfl, rfl, by decide⟩

/-- Witness for C6: `/set_footer` with no argument yields exactly the
usage reply and an unchanged store, and `/set_header  big  sale `
stores the stripped argument (internal whitespace kept). -/
theorem C6_set_command_arguments_witness :
    process_message fxEnvNone ⟨[], fun _ => none, fun _ => none⟩
        ⟨5, 7, none, "/set_footer", none, ""⟩ =
      ⟨⟨[], fun _ => none, fun _ => none⟩, [Outgoing.msg 5 FOOTER_USAGE_MSG], []⟩ ∧
    get_user_settings (process_message fxEnvNone ⟨[], fun _ => none, fun _ => none⟩
        ⟨5, 7, none, "/set_header  big  sale ", none, ""⟩).store.user_settings 7 =
      ⟨some "big  sale", none, false⟩ := by
  constructor
  · exact ((C6_set_command_arguments fxEnvNone ⟨[], fun _ => none, fun _ => none⟩
      ⟨5, 7, none, "/set_footer", none, ""⟩).2.2 (by decide)).1 (by decide)
  · have h := ((C6_set_command_arguments fxEnvNone ⟨[], fun _ => none, fun _ => none⟩
      ⟨5, 7, none, "/set_header  big  sale ", none, ""⟩).2.1 (by decide)).2
      "/set_header" "big  sale " (by decide)
    exact h.2.1.trans (by decide)

/-- C10: /delete_header and /delete_footer always reply with the
success confirmation, remove only the named field, leave every other
preference field, the stored API keys and the links unchanged, and
create no settings document when none exists (the update is not an
upsert). -/
theorem C10_delete_settings (env : Env) (st : Store) (msg : Msg) :
    (startswith "/delete_header" msg.text = true →
      (process_message env st msg).output =
        [Outgoing.msg msg.chat_id "✅ Header Deleted Successfully!"] ∧
      (process_message env st msg).store.links = st.links ∧
      (process_message env st msg).store.user_apis = st.user_apis ∧
      (∀ u, u ≠ msg.user_id →
        (process_message env st msg).store.user_settings u = st.user_settings u) ∧
      (st.user_settings msg.user_id = none →
        (process_message env st msg).store.user_settings msg.user_id = none) ∧
      (∀ d, st.user_settings msg.user_id = some d →
        (process_message env st msg).store.user_settings msg.user_id =
          some { d with header := none })) ∧
    (startswith "/delete_footer" msg.text = true →
      (process_message env st msg).output =
        [Outgoing.msg msg.chat_id "✅ Footer Deleted Successfully!"] ∧
      (process_message env st msg).store.links = st.links ∧
      (process_message env st msg).store.user_apis = st.user_apis ∧
      (∀ u, u ≠ msg.user_id →
        (process_message env st msg).store.user_settings u = st.user_settings u) ∧
      (st.user_settings msg.user_id = none →
        (process_message env st msg).store.user_settings msg.user_id = none) ∧
      (∀ d, st.user_settings msg.user_id = some d →
        (process_message env st msg).store.user_settings msg.user_id =
          some { d with footer := none })) := by
  constructor
  · intro hsw
    have h1 : startswith "/start" msg.text = false :=
      startswith_false_of _ _ (by decide) (by decide) _ hsw
    have h2 : startswith "/help" msg.text = false :=
      startswith_false_of _ _ (by decide) (by decide) _ hsw
    have h3 : startswith "/set_api" msg.text = false :=
      startswith_false_of _ _ (by decide) (by decide) _ hsw
    have h4 : startswith "/set_header" msg.text = false :=
      startswith_false_of _ _ (by decide) (by decide) _ hsw
    unfold process_message handleCommand
    simp only [h1, h2, h3, h4, hsw, Bool.false_eq_true, if_false, if_true]
    refine ⟨by trivial, by trivial, by trivial, ?_, ?_, ?_⟩
    · intro u hu
      simp [delete_user_setting, hu]
    · intro h0
      simp [delete_user_setting, h0]
    · intro d hd
      simp [delete_user_setting, hd]
  · intro hsw
    have h1 : startswith "/start" msg.text = false :=
      startswith_false_of _ _ (by decide) (by decide) _ hsw
    have h2 : startswith "/help" msg.text = false :=
      startswith_false_of _ _ (by decide) (by decide) _ hsw
    have h3 : startswith "/set_api" msg.text = false :=
      startswith_false_of _ _ (by decide) (by decide) _ hsw
    have h4 : startswith "/set_header" msg.text = false :=
      startswith_false_of _ _ (by decide) (by decide) _ hsw
    have h5 : startswith "/delete_header" msg.text = false :=
      startswith_false_of _ _ (by decide) (by decide) _ hsw
    have h6 : startswith "/set_footer" msg.text = false :=
      startswith_false_of _ _ (by decide) (by decide) _ hsw
    unfold process_message handleCommand
    simp only [h1, h2, h3, h4, h5, h6, hsw, Bool.false_eq_true, if_false, if_true]
    refine ⟨by trivial, by trivial, by trivial, ?_, ?_, ?_⟩
    · intro u hu
      simp [delete_user_setting, hu]
    · intro h0
      simp [delete_user_setting, h0]
    · intro d hd
      simp [delete_user_setting, hd]

/-- Witness for C10: deleting the header of a user with header, footer
and keep-text set clears only the header; deleting the footer of a user
with no settings document leaves the store without a document. -/
theorem C10_delete_settings_witness :
    (process_message fxEnvNone
        ⟨[], fun _ => none, fun u => if u = 7 then some ⟨some "H", some "F", some true⟩ else none⟩
        ⟨5, 7, none, "/delete_header", none, ""⟩).output =
      [Outgoing.msg 5 "✅ Header Deleted Successfully!"] ∧
    (process_message fxEnvNone
        ⟨[], fun _ => none, fun u => if u = 7 then some ⟨some "H", some "F", some true⟩ else none⟩
        ⟨5, 7, none, "/delete_header", none, ""⟩).store.user_settings 7 =
      some ⟨none, some "F", some true⟩ ∧
    (process_message fxEnvNone ⟨[], fun _ => none, fun _ => none⟩
        ⟨5, 7, none, "/delete_footer", none, ""⟩).store.user_settings 7 = none := by
  refine ⟨?_, ?_, ?_⟩
  · exact ((C10_delete_settings fxEnvNone
      ⟨[], fun _ => none, fun u => if u = 7 then some ⟨some "H", some "F", some true⟩ else none⟩
      ⟨5, 7, none, "/delete_header", none, ""⟩).1 (by decide)).1
  · exact ((C10_delete_settings fxEnvNone
      ⟨[], fun _ => none, fun u => if u = 7 then some ⟨some "H", some "F", some true⟩ else none⟩
      ⟨5, 7, none, "/delete_header", none, ""⟩).1 (by decide)).2.2.2.2.2
      ⟨some "H", some "F", some true⟩ (by decide)
  · exact ((C10_delete_settings fxEnvNone ⟨[], fun _ => none, fun _ => none⟩
      ⟨5, 7, none, "/delete_footer", none, ""⟩).2 (by decide)).2.2.2.2.1 rfl

/-- C8 counterexample: a response with HTTP status 500 and body status
"success", whose shortenedUrl field is present but empty and whose
short_url field is non-empty, succeeds in the code with the short_url
value, although the claim requires a uniform failure on a non-2xx
status; and under the claim's "first present field" rule a 2xx response
of the same body would have to yield the empty shortenedUrl, which the
code skips. -/
theorem C8_counterexample :
    short_with_user_token ⟨500, some "success", some "", some "https://b.co/x", none⟩ =
      some "https://b.co/x" ∧
    pyTruthy (short_with_user_token
      ⟨500, some "success", some "", some "https://b.co/x", none⟩) = true ∧
    claimedShorten ⟨500, some "success", some "", some "https://b.co/x", none⟩ = none ∧
    claimedShorten ⟨200, some "success", some "", some "https://b.co/x", none⟩ = some "" ∧
    short_with_user_token ⟨200, some "success", some "", some "https://b.co/x", none⟩ =
      some "https://b.co/x" ∧
    (some "" : Option String) ≠ some "https://b.co/x" := by
  refine ⟨by decide, by decide, by decide, by decide, by decide, by decide⟩

/-- Witness for C8: a response with non-2xx status 404, body status
"success" and only the `short` field set succeeds with that field, the
first truthy one. -/
theorem C8_shorten_response_contract_witness :
    pyTruthy (short_with_user_token ⟨404, some "success", none, none, some "https://ok"⟩) = true ∧
    some (short_with_user_token ⟨404, some "success", none, none, some "https://ok"⟩) =
      [(none : Option String), none, some "https://ok"].find? pyTruthy := by
  have h2 := (C8_shorten_response_contract
    ⟨404, some "success", none, none, some "https://ok"⟩).2.1.mpr
    ⟨rfl, Or.inr (Or.inr (by decide))⟩
  exact ⟨h2, (C8_shorten_response_contract
    ⟨404, some "success", none, none, some "https://ok"⟩).2.2.1 h2⟩

theorem handleCommand_links {st : Store} {msg : Msg} {pr : Store × List Outgoing}
    (h : handleCommand st msg = some pr) : pr.fst.links = st.links := by
  simp only [handleCommand] at h
  repeat' split at h
  all_goals first
    | exact Option.noConfusion h
    | (rw [ ← Option.some.inj h])

/-- C4 (amended): a message is dispatched to a command handler exactly
when its text STARTS, case-sensitively, with one of the nine command
strings (first-token equality is not required — any continuation such
as `/starting` also dispatches), and a dispatched message undergoes no
URL processing: no lookup, shortening or insert event occurs and the
links collection is unchanged. -/
theorem C4_command_dispatch (env : Env) (st : Store) (msg : Msg) :
    ((handleCommand st msg).isSome = isCommandText msg.text) ∧
    (isCommandText msg.text = true →
      (process_message env st msg).trace = [] ∧
      (process_message env st msg).store.links = st.links) := by
  have hsome : (handleCommand st msg).isSome = isCommandText msg.text := by
    simp only [isCommandText, commandPrefixes, List.any_cons, List.any_nil, Bool.or_false,
      handleCommand]
    cases c1 : startswith "/start" msg.text
    · rw [if_neg (by simp [c1])]
      cases c2 : startswith "/help" msg.text
      · rw [if_neg (by simp [c2])]
        cases c3 : startswith "/set_api" msg.text
        · rw [if_neg (by simp [c3])]
          cases c4 : startswith "/set_header" msg.text
          · rw [if_neg (by simp [c4])]
            cases c5 : startswith "/delete_header" msg.text
            · rw [if_neg (by simp [c5])]
              cases c6 : startswith "/set_footer" msg.text
              · rw [if_neg (by simp [c6])]
                cases c7 : startswith "/delete_footer" msg.text
                · rw [if_neg (by simp [c7])]
                  cases c8 : startswith "/keep_text" msg.text
                  · rw [if_neg (by simp [c8])]
                    cases c9 : startswith "/delete_text" msg.text
                    · rw [if_neg (by simp [c9])]
                      simp [c1, c2, c3, c4, c5, c6, c7, c8, c9]
                    · rw [if_pos rfl]
                      simp [c9]
                  · rw [if_pos rfl]
                    simp [c8]
                · rw [if_pos rfl]
                  simp [c7]
              · rw [if_pos rfl]
                split <;> simp [c6]
            · rw [if_pos rfl]
              simp [c5]
          · rw [if_pos rfl]
            split <;> simp [c4]
        · rw [if_pos rfl]
          split <;> simp [c3]
      · rw [if_pos rfl]
        simp [c2]
    · rw [if_pos rfl]
      split <;> simp [c1]
  refine ⟨hsome, ?_⟩
  intro h
  rw [h] at hsome
  cases hc : handleCommand st msg with
  | none =>
    rw [hc] at hsome
    simp at hsome
  | some pr =>
    obtain ⟨st', out⟩ := pr
    refine ⟨?_, ?_⟩
    · simp [process_message, hc]
    · have hl := handleCommand_links hc
      simp only [process_message, hc]
      exact hl

/-- C4 counterexample: the message text `/starting …` is dispatched to
the /start handler (its reply is the welcome text, not the URL
pipeline's api-key prompt) although its first whitespace-delimited
token `/starting` is not one of the nine command strings. -/
theorem C4_counterexample :
    first_token "/starting https://viralbox.in/abc" ∉ commandPrefixes ∧
    (process_message fxEnvNone ⟨[], fun _ => none, fun _ => none⟩
      ⟨5, 7, none, "/starting https://viralbox.in/abc", none, ""⟩).output =
      [Outgoing.msg 5 (START_WELCOME "User")] ∧
    [Outgoing.msg (5 : Int) (START_WELCOME "User")] ≠ [Outgoing.msg 5 NO_API_ERR] := by
  refine ⟨by decide, rfl, by decide⟩

/-- Witness for C4: the non-token text `/keep_textXYZ` is a command by
the prefix rule and triggers no URL processing. -/
theorem C4_command_dispatch_witness :
    (process_message fxEnvNone ⟨[], fun _ => none, fun _ => none⟩
      ⟨5, 7, none, "/keep_textXYZ", none, ""⟩).trace = [] ∧
    (process_message fxEnvNone ⟨[], fun _ => none, fun _ => none⟩
      ⟨5, 7, none, "/keep_textXYZ", none, ""⟩).store.links = [] := by
  have h := (C4_command_dispatch fxEnvNone ⟨[], fun _ => none, fun _ => none⟩
      ⟨5, 7, none, "/keep_textXYZ", none, ""⟩).2 (by decide)
  exact ⟨h.1, h.2⟩

theorem processUrls_append (env : Env) (us₁ us₂ : List String) :
    ∀ ls : LoopState, processUrls env ls (us₁ ++ us₂) =
      match processUrls env ls us₁ with
      | (ls', none) => processUrls env ls' us₂
      | (ls', some e) => (ls', some e) := by
  induction us₁ with
  | nil => intro ls; simp [processUrls]
  | cons u rest ih =>
    intro ls
    rw [List.cons_append]
    simp only [processUrls]
    by_cases hv : is_viralbox u = true
    · simp only [if_pos hv]
      cases hf : find_long_url ls.links u with
      | none => simp
      | some L =>
        by_cases hL : L.isEmpty = true
        · simp only [if_pos hL]
        · simp only [if_neg hL]
          cases hs : callShorten env ls.calls with
          | none => simp
          | some sv =>
            by_cases hse : sv.isEmpty = true
            · simp only [if_pos hse]
            · simp only [if_neg hse]
              exact ih _
    · simp only [if_neg hv]

theorem processUrls_links_extend (env : Env) (us : List String) :
    ∀ ls : LoopState, ∃ ext, (processUrls env ls us).fst.links = ls.links ++ ext := by
  induction us with
  | nil => intro ls; exact ⟨[], by simp [processUrls]⟩
  | cons u rest ih =>
    intro ls
    simp only [processUrls]
    by_cases hv : is_viralbox u = true
    · simp only [if_pos hv]
      cases hf : find_long_url ls.links u with
      | none => exact ⟨[], by simp⟩
      | some L =>
        by_cases hL : L.isEmpty = true
        · simp only [if_pos hL]
          exact ⟨[], by simp⟩
        · simp only [if_neg hL]
          cases hs : callShorten env ls.calls with
          | none => exact ⟨[], by simp⟩
          | some sv =>
            by_cases hse : sv.isEmpty = true
            · simp only [if_pos hse]
              exact ⟨[], by simp⟩
            · simp only [if_neg hse]
              obtain ⟨ext, hext⟩ := ih _
              refine ⟨⟨L, sv⟩ :: ext, ?_⟩
              rw [hext]
              simp [save_converted]
    · simp only [if_neg hv]
      exact ⟨[], by simp⟩

theorem find_long_url_append {links ext : List LinkRec} {u L : String}
    (h : find_long_url links u = some L) : find_long_url (links ++ ext) u = some L := by
  unfold find_long_url at h ⊢
  rw [List.find?_append]
  obtain ⟨r, hr, hrl⟩ := Option.map_eq_some'.mp h
  rw [hr]
  simp [hrl]

/-- C5 (amended): for every non-command message from a user with a
stored API key whose resolved text yields zero qualifying URLs, the
only observable effect is exactly one error reply and no store writes:
the reply is the "no valid link" message when NO URL at all is
extracted, and the domain-error message naming the FIRST extracted URL
when URLs are extracted but none has a host containing the target
domain. -/
theorem C5_zero_qualifying (env : Env) (st : Store) (msg : Msg)
    (hcmd : isCommandText msg.text = false)
    (happi : pyTruthy (get_api_key st.user_apis msg.user_id) = true) :
    (extract_urls (resolved_text msg) = [] →
      process_message env st msg = ⟨st, [Outgoing.msg msg.chat_id NO_URL_ERR], []⟩) ∧
    (∀ u us, extract_urls (resolved_text msg) = u :: us →
      (∀ v, v ∈ u :: us → is_viralbox v = false) →
      process_message env st msg = ⟨st, [Outgoing.msg msg.chat_id (DOMAIN_ERR u)], []⟩) := by
  constructor
  · intro hext
    simp only [process_message, handleCommand_none hcmd, runPipeline, happi, Bool.not_true,
      Bool.false_eq_true, if_false, hext, List.isEmpty_nil, if_true]
  · intro u us hext hall
    have hu : is_viralbox u = false := hall u (List.mem_cons_self u us)
    simp only [process_message, handleCommand_none hcmd, runPipeline, happi, Bool.not_true,
      Bool.false_eq_true, if_false, hext, List.isEmpty_cons, processUrls]
    rw [if_neg (by simp [hu])]

/-- C5 counterexample: a message whose single extracted URL is outside
the target domain gets the domain-error reply naming it, which differs
from the "no valid link" reply the claim requires for every
zero-qualifying-URL message. -/
theorem C5_counterexample :
    (process_message fxEnvNone
        ⟨[], fun u => if u = 7 then some "KEY" else none, fun _ => none⟩
        ⟨5, 7, none, "https://example.com/page", none, ""⟩).output =
      [Outgoing.msg 5 (DOMAIN_ERR "https://example.com/page")] ∧
    DOMAIN_ERR "https://example.com/page" ≠ NO_URL_ERR := by
  exact ⟨rfl, by decide⟩

/-- Witness for C5: a URL-free text gets the "no valid link" reply, and
a text whose only URL is off-domain gets the domain error; both leave
the store untouched. -/
theorem C5_zero_qualifying_witness :
    process_message fxEnvNone
        ⟨[], fun u => if u = 7 then some "KEY" else none, fun _ => none⟩
        ⟨5, 7, none, "hello there", none, ""⟩ =
      ⟨⟨[], fun u => if u = 7 then some "KEY" else none, fun _ => none⟩,
       [Outgoing.msg 5 NO_URL_ERR], []⟩ ∧
    process_message fxEnvNone
        ⟨[], fun u => if u = 7 then some "KEY" else none, fun _ => none⟩
        ⟨5, 7, none, "see https://example.com/page now", none, ""⟩ =
      ⟨⟨[], fun u => if u = 7 then some "KEY" else none, fun _ => none⟩,
       [Outgoing.msg 5 (DOMAIN_ERR "https://example.com/page")], []⟩ := by
  constructor
  · exact (C5_zero_qualifying fxEnvNone
      ⟨[], fun u => if u = 7 then some "KEY" else none, fun _ => none⟩
      ⟨5, 7, none, "hello there", none, ""⟩ (by decide) (by decide)).1 (by decide)
  · exact (C5_zero_qualifying fxEnvNone
      ⟨[], fun u => if u = 7 then some "KEY" else none, fun _ => none⟩
      ⟨5, 7, none, "see https://example.com/page now", none, ""⟩ (by decide) (by decide)).2
      "https://example.com/page" [] (by decide) (by decide)

theorem processUrls_append_none (env : Env) {us₁ : List String} (us₂ : List String)
    {ls ls₁ : LoopState} (h : processUrls env ls us₁ = (ls₁, none)) :
    processUrls env ls (us₁ ++ us₂) = processUrls env ls₁ us₂ := by
  have h0 := processUrls_append env us₁ us₂ ls
  rw [h] at h0
  exact h0

theorem processUrls_append_some (env : Env) {us₁ : List String} (us₂ : List String)
    {ls ls₁ : LoopState} {e : String} (h : processUrls env ls us₁ = (ls₁, some e)) :
    processUrls env ls (us₁ ++ us₂) = (ls₁, some e) := by
  have h0 := processUrls_append env us₁ us₂ ls
  rw [h] at h0
  exact h0

theorem processUrls_single_domain (env : Env) {ls₁ : LoopState} {bad : String}
    (hvb : is_viralbox bad = false) :
    processUrls env ls₁ [bad] = (ls₁, some (DOMAIN_ERR bad)) := by
  simp only [processUrls]
  rw [if_neg (by simp [hvb])]

theorem processUrls_single_notfound (env : Env) {ls₁ : LoopState} {bad : String}
    (hvb : is_viralbox bad = true) (hf : pyTruthy (find_long_url ls₁.links bad) = false) :
    processUrls env ls₁ [bad] =
      ({ ls₁ with trace := ls₁.trace ++ [Event.findLong bad] }, some (NOT_FOUND_ERR bad)) := by
  simp only [processUrls]
  rw [if_pos hvb]
  cases hfl : find_long_url ls₁.links bad with
  | none => simp [hfl]
  | some L =>
    rw [hfl] at hf
    simp only [pyTruthy] at hf
    have hL : L.isEmpty = true := by simpa using hf
    simp [hfl, hL]

theorem processUrls_single_convertfail (env : Env) {ls₁ : LoopState} {bad L : String}
    (hvb : is_viralbox bad = true) (hf : find_long_url ls₁.links bad = some L)
    (hL : L.isEmpty = false) (hc : pyTruthy (callShorten env ls₁.calls) = false) :
    processUrls env ls₁ [bad] =
      ({ ls₁ with calls := ls₁.calls + 1,
                  trace := ls₁.trace ++ [Event.findLong bad, Event.shortenCall L] },
       some (CONVERT_ERR bad)) := by
  simp only [processUrls]
  rw [if_pos hvb]
  cases hcs : callShorten env ls₁.calls with
  | none => simp [hf, hL, hcs]
  | some sv =>
    rw [hcs] at hc
    simp only [pyTruthy] at hc
    have hsv : sv.isEmpty = true := by simpa using hc
    simp [hf, hL, hcs, hsv]

theorem pipeline_fail (env : Env) (st : Store) (msg : Msg) {us₁ : List String} {bad : String}
    {us₂ : List String} {ls₁ ls' : LoopState} {err : String}
    (hcmd : isCommandText msg.text = false)
    (happi : pyTruthy (get_api_key st.user_apis msg.user_id) = true)
    (hext : extract_urls (resolved_text msg) = us₁ ++ bad :: us₂)
    (hpre : processUrls env ⟨st.links, 0, [], [], []⟩ us₁ = (ls₁, none))
    (hbad : processUrls env ls₁ [bad] = (ls', some err)) :
    process_message env st msg =
      ⟨{ st with links := ls'.links }, [Outgoing.msg msg.chat_id err], ls'.trace⟩ := by
  simp only [process_message, handleCommand_none hcmd, runPipeline, happi, Bool.not_true,
    Bool.false_eq_true, if_false, hext]
  rw [if_neg (by simp)]
  rw [processUrls_append_none env (bad :: us₂) hpre]
  have hstep : processUrls env ls₁ (bad :: us₂) = (ls', some err) := by
    have h2 := processUrls_append_some env us₂ hbad
    rw [List.singleton_append] at h2
    exact h2
  rw [hstep]

/-- C2 (amended): every invocation that ends in a user-input error —
missing command argument, unsupported link domain, or link not in store
— sends exactly one user-visible reply and terminates; a missing
command argument leaves the whole store unchanged; a URL whose host
does not match the target domain aborts the whole message with an error
naming it, whatever its position, but ShortLinkRecords persisted for
URLs already successfully converted earlier in the same message remain
(the link store is unchanged only when the offending URL comes first);
likewise for a link that is not in the store. -/
theorem C2_user_input_errors (env : Env) (st : Store) (msg : Msg) :
    ((startswith "/set_api" msg.text = true → (pySplit1 msg.text).length < 2 →
        process_message env st msg = ⟨st, [Outgoing.msg msg.chat_id API_USAGE_MSG], []⟩) ∧
     (startswith "/set_header" msg.text = true → (pySplit1 msg.text).length < 2 →
        process_message env st msg = ⟨st, [Outgoing.msg msg.chat_id HEADER_USAGE_MSG], []⟩) ∧
     (startswith "/set_footer" msg.text = true → (pySplit1 msg.text).length < 2 →
        process_message env st msg = ⟨st, [Outgoing.msg msg.chat_id FOOTER_USAGE_MSG], []⟩)) ∧
    (∀ us₁ bad us₂ ls₁, isCommandText msg.text = false →
      pyTruthy (get_api_key st.user_apis msg.user_id) = true →
      extract_urls (resolved_text msg) = us₁ ++ bad :: us₂ →
      processUrls env ⟨st.links, 0, [], [], []⟩ us₁ = (ls₁, none) →
      is_viralbox bad = false →
      process_message env st msg =
        ⟨{ st with links := ls₁.links }, [Outgoing.msg msg.chat_id (DOMAIN_ERR bad)],
         ls₁.trace⟩ ∧
      (us₁ = [] → (process_message env st msg).store.links = st.links) ∧
      ∃ ext, (process_message env st msg).store.links = st.links ++ ext) ∧
    (∀ us₁ bad us₂ ls₁, isCommandText msg.text = false →
      pyTruthy (get_api_key st.user_apis msg.user_id) = true →
      extract_urls (resolved_text msg) = us₁ ++ bad :: us₂ →
      processUrls env ⟨st.links, 0, [], [], []⟩ us₁ = (ls₁, none) →
      is_viralbox bad = true →
      pyTruthy (find_long_url ls₁.links bad) = false →
      process_message env st msg =
        ⟨{ st with links := ls₁.links }, [Outgoing.msg msg.chat_id (NOT_FOUND_ERR bad)],
         ls₁.trace ++ [Event.findLong bad]⟩ ∧
      ∃ ext, (process_message env st msg).store.links = st.links ++ ext) := by
  refine ⟨⟨?_, ?_, ?_⟩, ?_, ?_⟩
  · intro hsw hlen
    have h1 : startswith "/start" msg.text = false :=
      startswith_false_of _ _ (by decide) (by decide) _ hsw
    have h2 : startswith "/help" msg.text = false :=
      startswith_false_of _ _ (by decide) (by decide) _ hsw
    unfold process_message handleCommand
    simp only [h1, h2, hsw, Bool.false_eq_true, if_false, if_true]
    cases hsp : pySplit1 msg.text with
    | nil => rfl
    | cons a t =>
      cases t with
      | nil => rfl
      | cons b t2 =>
        cases t2 with
        | nil =>
          rw [hsp] at hlen
          simp at hlen
        | cons c t3 => rfl
  · intro hsw hlen
    have h1 : startswith "/start" msg.text = false :=
      startswith_false_of _ _ (by decide) (by decide) _ hsw
    have h2 : startswith "/help" msg.text = false :=
      startswith_false_of _ _ (by decide) (by decide) _ hsw
    have h3 : startswith "/set_api" msg.text = false :=
      startswith_false_of _ _ (by decide) (by decide) _ hsw
    unfold process_message handleCommand
    simp only [h1, h2, h3, hsw, Bool.false_eq_true, if_false, if_true]
    cases hsp : pySplit1 msg.text with
    | nil => rfl
    | cons a t =>
      cases t with
      | nil => rfl
      | cons b t2 =>
        cases t2 with
        | nil =>
          rw [hsp] at hlen
          simp at hlen
        | cons c t3 => rfl
  · intro hsw hlen
    have h1 : startswith "/start" msg.text = false :=
      startswith_false_of _ _ (by decide) (by decide) _ hsw
    have h2 : startswith "/help" msg.text = false :=
      startswith_false_of _ _ (by decide) (by decide) _ hsw
    have h3 : startswith "/set_api" msg.text = false :=
      startswith_false_of _ _ (by decide) (by decide) _ hsw
    have h4 : startswith "/set_header" msg.text = false :=
      startswith_false_of _ _ (by decide) (by decide) _ hsw
    have h5 : startswith "/delete_header" msg.text = false :=
      startswith_false_of _ _ (by decide) (by decide) _ hsw
    unfold process_message handleCommand
    simp only [h1, h2, h3, h4, h5, hsw, Bool.false_eq_true, if_false, if_true]
    cases hsp : pySplit1 msg.text with
    | nil => rfl
    | cons a t =>
      cases t with
      | nil => rfl
      | cons b t2 =>
        cases t2 with
        | nil =>
          rw [hsp] at hlen
          simp at hlen
        | cons c t3 => rfl
  · intro us₁ bad us₂ ls₁ hcmd happi hext hpre hvb
    have hmain := pipeline_fail env st msg hcmd happi hext hpre
      (processUrls_single_domain env hvb)
    refine ⟨hmain, ?_, ?_⟩
    · intro h0
      subst h0
      have h1 : processUrls env ⟨st.links, 0, [], [], []⟩ ([] : List String) =
          (⟨st.links, 0, [], [], []⟩, none) := rfl
      rw [h1] at hpre
      injection hpre with hl hr
      rw [hmain, ← hl]
    · rw [hmain]
      obtain ⟨ext, hx⟩ := processUrls_links_extend env us₁ ⟨st.links, 0, [], [], []⟩
      rw [hpre] at hx
      exact ⟨ext, hx⟩
  · intro us₁ bad us₂ ls₁ hcmd happi hext hpre hvb hnf
    have hmain := pipeline_fail env st msg hcmd happi hext hpre
      (processUrls_single_notfound env hvb hnf)
    refine ⟨hmain, ?_⟩
    rw [hmain]
    obtain ⟨ext, hx⟩ := processUrls_links_extend env us₁ ⟨st.links, 0, [], [], []⟩
    rw [hpre] at hx
    exact ⟨ext, hx⟩

/-- C2 counterexample: a message whose first URL converts successfully
and whose second URL is off-domain ends in a user-input error (the
domain error naming the second URL) yet the link store HAS been mutated
during the invocation — a record for the first URL was persisted — so
the error does not leave the link store unchanged regardless of the
offending URL's position. -/
theorem C2_counterexample :
    (process_message fxEnvZzz ⟨fxLinks1, fxApis, fun _ => none⟩
        ⟨5, 7, none, "https://viralbox.in/abc https://example.com/b", none, ""⟩).output =
      [Outgoing.msg 5 (DOMAIN_ERR "https://example.com/b")] ∧
    (process_message fxEnvZzz ⟨fxLinks1, fxApis, fun _ => none⟩
        ⟨5, 7, none, "https://viralbox.in/abc https://example.com/b", none, ""⟩).store.links ≠
      fxLinks1 ∧
    (process_message fxEnvZzz ⟨fxLinks1, fxApis, fun _ => none⟩
        ⟨5, 7, none, "https://viralbox.in/abc https://example.com/b", none, ""⟩).store.links =
      fxLinks1 ++ [⟨"https://long.example/x", "https://viralbox.in/zzz"⟩] := by
  refine ⟨rfl, by decide, rfl⟩

/-- Witness for C2: the same scenario through the amended theorem — one
domain-error reply naming the second URL, and the link store equal to
the original plus exactly the record persisted for the first URL. -/
theorem C2_user_input_errors_witness :
    process_message fxEnvZzz ⟨fxLinks1, fxApis, fun _ => none⟩
        ⟨5, 7, none, "https://viralbox.in/abc https://example.com/b", none, ""⟩ =
      ⟨⟨fxLinks1 ++ [⟨"https://long.example/x", "https://viralbox.in/zzz"⟩], fxApis,
        fun _ => none⟩,
       [Outgoing.msg 5 (DOMAIN_ERR "https://example.com/b")],
       [Event.findLong "https://viralbox.in/abc",
        Event.shortenCall "https://long.example/x",
        Event.save "https://long.example/x" "https://viralbox.in/zzz"]⟩ := by
  have h := ((C2_user_input_errors fxEnvZzz ⟨fxLinks1, fxApis, fun _ => none⟩
      ⟨5, 7, none, "https://viralbox.in/abc https://example.com/b", none, ""⟩).2.1
      ["https://viralbox.in/abc"] "https://example.com/b" []
      ⟨fxLinks1 ++ [⟨"https://long.example/x", "https://viralbox.in/zzz"⟩], 1,
       [("https://viralbox.in/abc", "https://viralbox.in/zzz")], ["https://viralbox.in/zzz"],
       [Event.findLong "https://viralbox.in/abc",
        Event.shortenCall "https://long.example/x",
        Event.save "https://long.example/x" "https://viralbox.in/zzz"]⟩
      (by decide) (by decide) (by decide) (by decide) (by decide)).1
  exact h

/-- C3: if the Nth qualifying URL fails long-URL resolution (lookup
miss or Python-falsy stored value) or shortening (falsy call result),
the invocation sends exactly one error reply naming that URL, performs
no lookup or shortening call for any later URL (the trace ends at the
failing URL), and keeps every ShortLinkRecord persisted for the earlier
URLs (the final links are the prefix state's links, an extension of the
initial store). -/
theorem C3_fail_fast (env : Env) (st : Store) (msg : Msg)
    (us₁ : List String) (bad : String) (us₂ : List String) (ls₁ : LoopState)
    (hcmd : isCommandText msg.text = false)
    (happi : pyTruthy (get_api_key st.user_apis msg.user_id) = true)
    (hext : extract_urls (resolved_text msg) = us₁ ++ bad :: us₂)
    (hpre : processUrls env ⟨st.links, 0, [], [], []⟩ us₁ = (ls₁, none))
    (hvb : is_viralbox bad = true) :
    (pyTruthy (find_long_url ls₁.links bad) = false →
      process_message env st msg =
        ⟨{ st with links := ls₁.links }, [Outgoing.msg msg.chat_id (NOT_FOUND_ERR bad)],
         ls₁.trace ++ [Event.findLong bad]⟩) ∧
    (∀ L, find_long_url ls₁.links bad = some L → L.isEmpty = false →
      pyTruthy (callShorten env ls₁.calls) = false →
      process_message env st msg =
        ⟨{ st with links := ls₁.links }, [Outgoing.msg msg.chat_id (CONVERT_ERR bad)],
         ls₁.trace ++ [Event.findLong bad, Event.shortenCall L]⟩) ∧
    (∃ ext, ls₁.links = st.links ++ ext) := by
  refine ⟨?_, ?_, ?_⟩
  · intro hnf
    exact pipeline_fail env st msg hcmd happi hext hpre
      (processUrls_single_notfound env hvb hnf)
  · intro L hf hL hc
    exact pipeline_fail env st msg hcmd happi hext hpre
      (processUrls_single_convertfail env hvb hf hL hc)
  · obtain ⟨ext, hx⟩ := processUrls_links_extend env us₁ ⟨st.links, 0, [], [], []⟩
    rw [hpre] at hx
    exact ⟨ext, hx⟩

/-- Witness for C3: the spec's scenario — two qualifying URLs, the
second absent from the store; exactly one "not in database" reply
naming the second URL is sent, exactly the first URL's record is
persisted, and no lookup or shortening happens after the failure. -/
theorem C3_fail_fast_witness :
    process_message fxEnvZzz ⟨fxLinks1, fxApis, fun _ => none⟩
        ⟨5, 7, none, "https://viralbox.in/abc https://viralbox.in/missing", none, ""⟩ =
      ⟨⟨fxLinks1 ++ [⟨"https://long.example/x", "https://viralbox.in/zzz"⟩], fxApis,
        fun _ => none⟩,
       [Outgoing.msg 5 (NOT_FOUND_ERR "https://viralbox.in/missing")],
       [Event.findLong "https://viralbox.in/abc",
        Event.shortenCall "https://long.example/x",
        Event.save "https://long.example/x" "https://viralbox.in/zzz",
        Event.findLong "https://viralbox.in/missing"]⟩ := by
  exact (C3_fail_fast fxEnvZzz ⟨fxLinks1, fxApis, fun _ => none⟩
      ⟨5, 7, none, "https://viralbox.in/abc https://viralbox.in/missing", none, ""⟩
      ["https://viralbox.in/abc"] "https://viralbox.in/missing" []
      ⟨fxLinks1 ++ [⟨"https://long.example/x", "https://viralbox.in/zzz"⟩], 1,
       [("https://viralbox.in/abc", "https://viralbox.in/zzz")], ["https://viralbox.in/zzz"],
       [Event.findLong "https://viralbox.in/abc",
        Event.shortenCall "https://long.example/x",
        Event.save "https://long.example/x" "https://viralbox.in/zzz"]⟩
      (by decide) (by decide) (by decide) (by decide) (by decide)).1 (by decide)

/-- C1 (amended): in replace mode the assembled reply is, in order, the
user's header (when set and non-empty) as its own paragraph, then EACH
newly produced short URL as its own paragraph, then the footer (when
set and non-empty) as its own paragraph, all paragraphs joined by one
blank line; in particular, for exactly one produced short URL S, header
H and no footer, the reply is exactly H ++ "\n\n" ++ S. -/
theorem C1_replace_mode_assembly (env : Env) (st : Store) (msg : Msg) (ls : LoopState)
    (hcmd : isCommandText msg.text = false)
    (happi : pyTruthy (get_api_key st.user_apis msg.user_id) = true)
    (hkeep : (get_user_settings st.user_settings msg.user_id).keep_text = false)
    (hmedia : msg.media = none)
    (hne : extract_urls (resolved_text msg) ≠ [])
    (hloop : processUrls env ⟨st.links, 0, [], [], []⟩
      (extract_urls (resolved_text msg)) = (ls, none)) :
    process_message env st msg =
      ⟨{ st with links := ls.links },
       [Outgoing.msg msg.chat_id (String.intercalate "\n\n"
         (optPart (get_user_settings st.user_settings msg.user_id).header ++ ls.converted ++
          optPart (get_user_settings st.user_settings msg.user_id).footer))],
       ls.trace⟩ := by
  have hie : (extract_urls (resolved_text msg)).isEmpty = false :=
    List.isEmpty_eq_false.mpr hne
  simp only [process_message, handleCommand_none hcmd, runPipeline, happi, Bool.not_true,
    Bool.false_eq_true, if_false, hie, hloop, hkeep, hmedia]

/-- C1 counterexample: with header "Links:" and TWO produced short
URLs, the code joins every part — header and each link — with a blank
line, so the reply separates the two links by a blank line, not by a
single newline as the claim's "one URL per line in one paragraph"
assembly would produce. -/
theorem C1_counterexample :
    (process_message
        ⟨fun i => if i = 0 then some ⟨200, some "success", some "https://viralbox.in/zz0", none, none⟩
          else some ⟨200, some "success", some "https://viralbox.in/zz1", none, none⟩⟩
        ⟨[⟨"https://long.example/x", "https://viralbox.in/abc"⟩,
          ⟨"https://long.example/y", "https://viralbox.in/def"⟩], fxApis,
         fun u => if u = 7 then some ⟨some "Links:", none, none⟩ else none⟩
        ⟨5, 7, none, "https://viralbox.in/abc https://viralbox.in/def", none, ""⟩).output =
      [Outgoing.msg 5 "Links:\n\nhttps://viralbox.in/zz0\n\nhttps://viralbox.in/zz1"] ∧
    claimedReplaceReply (some "Links:") none
        ["https://viralbox.in/zz0", "https://viralbox.in/zz1"] =
      "Links:\n\nhttps://viralbox.in/zz0\nhttps://viralbox.in/zz1" ∧
    ("Links:\n\nhttps://viralbox.in/zz0\n\nhttps://viralbox.in/zz1" : String) ≠
      "Links:\n\nhttps://viralbox.in/zz0\nhttps://viralbox.in/zz1" := by
  refine ⟨rfl, rfl, by decide⟩

/-- Witness for C1: the spec's scenario — text
`check https://viralbox.in/abc out`, store mapping the inbound URL to a
long URL, shortener returning `https://viralbox.in/zzz`, replace mode,
header "Links:", no footer — replies exactly
`Links:\n\nhttps://viralbox.in/zzz`. -/
theorem C1_replace_mode_assembly_witness :
    (process_message fxEnvZzz
        ⟨fxLinks1, fxApis, fun u => if u = 7 then some ⟨some "Links:", none, none⟩ else none⟩
        ⟨5, 7, none, "check https://viralbox.in/abc out", none, ""⟩).output =
      [Outgoing.msg 5 "Links:\n\nhttps://viralbox.in/zzz"] := by
  have h := C1_replace_mode_assembly fxEnvZzz
      ⟨fxLinks1, fxApis, fun u => if u = 7 then some ⟨some "Links:", none, none⟩ else none⟩
      ⟨5, 7, none, "check https://viralbox.in/abc out", none, ""⟩
      ⟨fxLinks1 ++ [⟨"https://long.example/x", "https://viralbox.in/zzz"⟩], 1,
       [("https://viralbox.in/abc", "https://viralbox.in/zzz")], ["https://viralbox.in/zzz"],
       [Event.findLong "https://viralbox.in/abc",
        Event.shortenCall "https://long.example/x",
        Event.save "https://long.example/x" "https://viralbox.in/zzz"]⟩
      (by decide) (by decide) (by decide) (by decide) (by decide) (by decide)
  rw [h]
  decide

theorem pyReplaceAux_cons_pos {old : List Char} (new : List Char) {c : Char} {rest : List Char}
    (h : old ≠ [] ∧ old.isPrefixOf (c :: rest) = true) :
    pyReplaceAux old new (c :: rest) =
      new ++ pyReplaceAux old new ((c :: rest).drop old.length) := by
  rw [pyReplaceAux]
  rw [dif_pos h]

theorem pyReplaceAux_cons_neg {old : List Char} (new : List Char) {c : Char} {rest : List Char}
    (h : ¬(old ≠ [] ∧ old.isPrefixOf (c :: rest) = true)) :
    pyReplaceAux old new (c :: rest) = c :: pyReplaceAux old new rest := by
  rw [pyReplaceAux]
  rw [dif_neg h]

theorem pyReplaceAux_head_match {old : List Char} (new : List Char) {s : List Char}
    (hold : old ≠ []) (hpre : old.isPrefixOf s = true) :
    pyReplaceAux old new s = new ++ pyReplaceAux old new (s.drop old.length) := by
  cases s with
  | nil =>
    cases old with
    | nil => exact absurd rfl hold
    | cons a as => simp at hpre
  | cons c rest => exact pyReplaceAux_cons_pos new ⟨hold, hpre⟩

theorem pyReplaceAux_no_match (old new : List Char) :
    ∀ s : List Char, (∀ i, old.isPrefixOf (s.drop i) = false) →
      pyReplaceAux old new s = s := by
  intro s
  induction s with
  | nil => intro h; rw [pyReplaceAux]
  | cons c rest ih =>
    intro h
    have hneg : ¬(old ≠ [] ∧ old.isPrefixOf (c :: rest) = true) := by
      rintro ⟨-, hpre⟩
      have h0 := h 0
      simp only [List.drop_zero] at h0
      rw [hpre] at h0
      exact Bool.noConfusion h0
    rw [pyReplaceAux_cons_neg new hneg, ih (fun i => by simpa using h (i + 1))]

theorem pyReplaceAux_unique (old new : List Char) (hold : old ≠ []) :
    ∀ (p t : List Char),
      (∀ i, old.isPrefixOf ((p ++ old ++ t).drop i) = true → i = p.length) →
      pyReplaceAux old new (p ++ old ++ t) = p ++ new ++ t := by
  intro p
  induction p with
  | nil =>
    intro t huniq
    simp only [List.nil_append] at huniq ⊢
    rw [pyReplaceAux_head_match new hold
      (by rw [ List.isPrefixOf_iff_prefix]; exact List.prefix_append _ _)]
    rw [List.drop_left]
    rw [pyReplaceAux_no_match old new t ?_]
    · intro i
      cases hcon : old.isPrefixOf (t.drop i) with
      | false => rfl
      | true =>
        have heq := huniq (old.length + i) (by rw [List.drop_append]; exact hcon)
        simp only [List.length_nil] at heq
        have h0 : old = [] := List.length_eq_zero.mp (by omega)
        exact absurd h0 hold
  | cons c p' ih =>
    intro t huniq
    simp only [List.cons_append]
    have hneg : ¬(old ≠ [] ∧ old.isPrefixOf (c :: (p' ++ old ++ t)) = true) := by
      rintro ⟨-, hpre⟩
      have h0 := huniq 0 (by simpa using hpre)
      simp at h0
    rw [pyReplaceAux_cons_neg new hneg]
    rw [ih t (fun i hpre => by
      have := huniq (i + 1) (by simpa using hpre)
      simpa using this)]

/-- C7: in keep mode, for a text message containing exactly one
qualifying URL U occurring exactly once as a substring, whose lookup
gives long URL L and whose shortening call yields S, the output text is
the input text with that single occurrence of U replaced by S and all
other characters unchanged. -/
theorem C7_keep_mode_single (env : Env) (st : Store) (msg : Msg) (U L S : String)
    (p suf : List Char)
    (hcmd : isCommandText msg.text = false)
    (happi : pyTruthy (get_api_key st.user_apis msg.user_id) = true)
    (hkeep : (get_user_settings st.user_settings msg.user_id).keep_text = true)
    (hmedia : msg.media = none)
    (hext : extract_urls msg.text = [U])
    (hUne : U.data ≠ [])
    (hvb : is_viralbox U = true)
    (hsplit : msg.text.data = p ++ U.data ++ suf)
    (huniq : ∀ i, i < msg.text.data.length →
      U.data.isPrefixOf (msg.text.data.drop i) = true → i = p.length)
    (hfind : find_long_url st.links U = some L) (hL : L.isEmpty = false)
    (hcall : callShorten env 0 = some S) (hS : S.isEmpty = false) :
    (process_message env st msg).output = [Outgoing.msg msg.chat_id ⟨p ++ S.data ++ suf⟩] := by
  have hres : resolved_text msg = msg.text := by rw [resolved_text, hmedia]
  have hie2 : msg.text.isEmpty = false := by
    cases hcase : msg.text.isEmpty
    · rfl
    · exfalso
      simp [extract_urls, hcase] at hext
  have hloop : processUrls env ⟨st.links, 0, [], [], []⟩ [U] =
      (⟨st.links ++ [⟨L, S⟩], 1, [(U, S)], [S],
        [Event.findLong U, Event.shortenCall L, Event.save L S]⟩, none) := by
    simp [processUrls, hvb, hfind, hL, hcall, hS, save_converted, dictSet]
  have hresp : replace_urls_in_text msg.text [(U, S)] = ⟨p ++ S.data ++ suf⟩ := by
    rw [replace_urls_in_text, if_neg (by simp [hie2])]
    simp only [List.foldl_cons, List.foldl_nil]
    rw [pyReplace]
    congr 1
    rw [hsplit]
    apply pyReplaceAux_unique U.data S.data hUne p suf
    intro i hpre
    by_cases hi : i < msg.text.data.length
    · exact huniq i hi (by rw [hsplit]; exact hpre)
    · exfalso
      have hdrop : (p ++ U.data ++ suf).drop i = [] := by
        apply List.drop_eq_nil_of_le
        have hlen : (p ++ U.data ++ suf).length = msg.text.data.length := by
          rw [hsplit]
        omega
      rw [hdrop] at hpre
      cases hU2 : U.data with
      | nil => exact hUne hU2
      | cons a as =>
        rw [hU2] at hpre
        simp at hpre
  have hie : (extract_urls (resolved_text msg)).isEmpty = false := by
    rw [hres, hext]
    rfl
  simp only [process_message, handleCommand_none hcmd, runPipeline, happi, Bool.not_true,
    Bool.false_eq_true, if_false, hie, hres, hext, hloop, hkeep, hmedia, if_true, hresp]
  rw [if_neg (by simp)]

/-- Witness for C7: `check https://viralbox.in/abc out` in keep mode
becomes `check https://viralbox.in/zzz out` — only the URL substring is
replaced. -/
theorem C7_keep_mode_single_witness :
    (process_message fxEnvZzz
        ⟨fxLinks1, fxApis, fun u => if u = 7 then some ⟨none, none, some true⟩ else none⟩
        ⟨5, 7, none, "check https://viralbox.in/abc out", none, ""⟩).output =
      [Outgoing.msg 5 "check https://viralbox.in/zzz out"] := by
  have h := C7_keep_mode_single fxEnvZzz
      ⟨fxLinks1, fxApis, fun u => if u = 7 then some ⟨none, none, some true⟩ else none⟩
      ⟨5, 7, none, "check https://viralbox.in/abc out", none, ""⟩
      "https://viralbox.in/abc" "https://long.example/x" "https://viralbox.in/zzz"
      "check ".data " out".data
      (by decide) (by decide) (by decide) (by decide) (by decide) (by decide) (by decide)
      (by decide) (by decide) (by decide) (by decide) (by decide) (by decide)
  rw [h]
  decide

theorem dictSet_dictSet (m : List (String × String)) (k a b : String) :
    dictSet (dictSet m k a) k b = dictSet m k b := by
  unfold dictSet
  by_cases h : m.any (fun p => p.fst == k) = true
  · rw [if_pos h]
    have hany : (m.map (fun p => if p.fst == k then (k, a) else p)).any
        (fun p => p.fst == k) = true := by
      rw [List.any_map]
      rw [List.any_eq_true]
      obtain ⟨x, hx, hpx⟩ := List.any_eq_true.mp h
      exact ⟨x, hx, by simp [Function.comp, hpx]⟩
    rw [if_pos hany, if_pos h]
    rw [List.map_map]
    apply List.map_congr_left
    intro x hx
    by_cases hxk : (x.fst == k) = true
    · simp [Function.comp, hxk]
    · simp [Function.comp, hxk]
  · rw [if_neg h]
    have hany : (m ++ [(k, a)]).any (fun p => p.fst == k) = true := by
      simp
    rw [if_pos hany, if_neg h]
    rw [List.map_append]
    have hmap : m.map (fun p => if p.fst == k then (k, b) else p) = m := by
      have hall : ∀ x ∈ m, (if x.fst == k then (k, b) else x) = x := by
        intro x hx
        have hfalse : (x.fst == k) = false := by
          rcases Bool.eq_false_or_eq_true (x.fst == k) with ht | hf
          · exact absurd (List.any_eq_true.mpr ⟨x, hx, ht⟩) h
          · exact hf
        simp [hfalse]
      calc m.map (fun p => if p.fst == k then (k, b) else p) = m.map id :=
            List.map_congr_left hall
        _ = m := List.map_id m
    rw [hmap]
    simp

theorem range_succ_map_append {α : Type} (g : Nat → α) (c k : Nat) :
    g c :: (List.range k).map (fun j => g (c + 1 + j)) =
      (List.range (k + 1)).map (fun j => g (c + j)) := by
  rw [List.range_succ_eq_map, List.map_cons, List.map_map]
  have h2 : ((fun j => g (c + j)) ∘ Nat.succ) = (fun j => g (c + 1 + j)) := by
    funext j
    simp only [Function.comp_apply]
    congr 1
    omega
  rw [h2]
  simp

theorem range_succ_flatMap_append {α : Type} (g : Nat → List α) (c k : Nat) :
    g c ++ (List.range k).flatMap (fun j => g (c + 1 + j)) =
      (List.range (k + 1)).flatMap (fun j => g (c + j)) := by
  rw [List.range_succ_eq_map, List.flatMap_cons, List.flatMap_map]
  have h2 : (fun j => g (c + 1 + j)) = (fun a => g (c + (a + 1))) := by
    funext j
    congr 1
    omega
  rw [h2]
  simp

theorem processUrls_replicate (env : Env) (U L : String) (S : Nat → String)
    (hvb : is_viralbox U = true) (hL : L.isEmpty = false) :
    ∀ (k : Nat) (ls : LoopState),
      find_long_url ls.links U = some L →
      (∀ j, j < k → callShorten env (ls.calls + j) = some (S (ls.calls + j)) ∧
        (S (ls.calls + j)).isEmpty = false) →
      processUrls env ls (List.replicate k U) =
        (⟨ls.links ++ (List.range k).map (fun j => ⟨L, S (ls.calls + j)⟩),
          ls.calls + k,
          (if k = 0 then ls.mapping else dictSet ls.mapping U (S (ls.calls + (k - 1)))),
          ls.converted ++ (List.range k).map (fun j => S (ls.calls + j)),
          ls.trace ++ (List.range k).flatMap (fun j =>
            [Event.findLong U, Event.shortenCall L, Event.save L (S (ls.calls + j))])⟩,
         none) := by
  intro k
  induction k with
  | zero =>
    intro ls hfind hcalls
    simp [processUrls]
  | succ k ih =>
    intro ls hfind hcalls
    rw [List.replicate_succ]
    obtain ⟨hc0, hs0⟩ := hcalls 0 (Nat.succ_pos k)
    simp only [Nat.add_zero] at hc0 hs0
    have hstep : processUrls env ls (U :: List.replicate k U) =
        processUrls env ⟨ls.links ++ [⟨L, S ls.calls⟩], ls.calls + 1,
          dictSet ls.mapping U (S ls.calls), ls.converted ++ [S ls.calls],
          ls.trace ++ [Event.findLong U, Event.shortenCall L, Event.save L (S ls.calls)]⟩
          (List.replicate k U) := by
      simp [processUrls, hvb, hfind, hL, hc0, hs0, save_converted]
    rw [hstep]
    have hfind2 : find_long_url (ls.links ++ [⟨L, S ls.calls⟩]) U = some L :=
      find_long_url_append hfind
    have hcalls2 : ∀ j, j < k →
        callShorten env (ls.calls + 1 + j) = some (S (ls.calls + 1 + j)) ∧
        (S (ls.calls + 1 + j)).isEmpty = false := by
      intro j hj
      have h2 := hcalls (j + 1) (Nat.succ_lt_succ hj)
      rw [show ls.calls + 1 + j = ls.calls + (j + 1) from by omega]
      exact h2
    have hih := ih ⟨ls.links ++ [⟨L, S ls.calls⟩], ls.calls + 1,
      dictSet ls.mapping U (S ls.calls), ls.converted ++ [S ls.calls],
      ls.trace ++ [Event.findLong U, Event.shortenCall L, Event.save L (S ls.calls)]⟩
      hfind2 hcalls2
    rw [hih]
    congr 1
    simp only [LoopState.mk.injEq]
    refine ⟨?_, by omega, ?_, ?_, ?_⟩
    · rw [List.append_assoc]
      congr 1
      rw [List.singleton_append]
      exact range_succ_map_append (fun i => (⟨L, S i⟩ : LinkRec)) ls.calls k
    · by_cases hk : k = 0
      · subst hk
        simp
      · rw [if_neg hk, if_neg (by omega : ¬(k + 1 = 0))]
        rw [dictSet_dictSet]
        congr 2
        omega
    · rw [List.append_assoc]
      congr 1
      rw [List.singleton_append]
      exact range_succ_map_append S ls.calls k
    · rw [List.append_assoc]
      congr 1
      exact range_succ_flatMap_append
        (fun i => [Event.findLong U, Event.shortenCall L, Event.save L (S i)]) ls.calls k

/-- C9: when the same qualifying URL U occurs k ≥ 2 times among the
extracted URLs of one text message, the pipeline performs k separate
lookup/shorten/insert rounds in extraction order (the trace lists the
three events k times and k records are appended), replace mode emits
all k produced short URLs, yet the URL mapping keeps only the short URL
of the LAST round, so keep mode substitutes every occurrence of U with
that last value only. -/
theorem C9_duplicate_url_rounds (env : Env) (st : Store) (msg : Msg) (U L : String)
    (k : Nat) (S : Nat → String)
    (hk : 2 ≤ k)
    (hcmd : isCommandText msg.text = false)
    (happi : pyTruthy (get_api_key st.user_apis msg.user_id) = true)
    (hmedia : msg.media = none)
    (hext : extract_urls msg.text = List.replicate k U)
    (hvb : is_viralbox U = true)
    (hfind : find_long_url st.links U = some L) (hL : L.isEmpty = false)
    (hcalls : ∀ j, j < k → callShorten env j = some (S j) ∧ (S j).isEmpty = false) :
    (process_message env st msg).trace =
      (List.range k).flatMap (fun j =>
        [Event.findLong U, Event.shortenCall L, Event.save L (S j)]) ∧
    (process_message env st msg).store.links =
      st.links ++ (List.range k).map (fun j => (⟨L, S j⟩ : LinkRec)) ∧
    ((get_user_settings st.user_settings msg.user_id).keep_text = false →
      (process_message env st msg).output =
        [Outgoing.msg msg.chat_id (String.intercalate "\n\n"
          (optPart (get_user_settings st.user_settings msg.user_id).header ++
           (List.range k).map S ++
           optPart (get_user_settings st.user_settings msg.user_id).footer))]) ∧
    ((get_user_settings st.user_settings msg.user_id).keep_text = true →
      (process_message env st msg).output =
        [Outgoing.msg msg.chat_id (pyReplace msg.text U (S (k - 1)))]) := by
  have hres : resolved_text msg = msg.text := by rw [resolved_text, hmedia]
  have hie2 : msg.text.isEmpty = false := by
    cases hcase : msg.text.isEmpty
    · rfl
    · exfalso
      simp [extract_urls, hcase] at hext
      omega
  have hloop := processUrls_replicate env U L S hvb hL k ⟨st.links, 0, [], [], []⟩ hfind
    (fun j hj => by simpa using hcalls j hj)
  simp only [Nat.zero_add] at hloop
  rw [if_neg (by omega : ¬(k = 0))] at hloop
  have hne : extract_urls (resolved_text msg) ≠ [] := by
    rw [hres, hext]
    intro hnil
    have := congrArg List.length hnil
    simp at this
    omega
  have hie : (extract_urls (resolved_text msg)).isEmpty = false := List.isEmpty_eq_false.mpr hne
  have hmap : dictSet ([] : List (String × String)) U (S (k - 1)) = [(U, S (k - 1))] := by
    simp [dictSet]
  have hrepl : replace_urls_in_text msg.text [(U, S (k - 1))] = pyReplace msg.text U (S (k - 1)) := by
    rw [replace_urls_in_text, if_neg (by simp [hie2])]
    simp only [List.foldl_cons, List.foldl_nil]
  have hrepne : (List.replicate k U).isEmpty = false := by
    rw [List.isEmpty_eq_false]
    intro hnil
    have := congrArg List.length hnil
    simp at this
    omega
  simp only [process_message, handleCommand_none hcmd, runPipeline, happi, Bool.not_true,
    Bool.false_eq_true, if_false, hie, hres, hext, hloop, hmap, hmedia, hrepl, hrepne,
    List.nil_append]
  refine ⟨by trivial, by trivial, ?_, ?_⟩
  · intro hkf
    simp only [hkf, Bool.false_eq_true, if_false]
  · intro hkt
    simp only [hkt, if_true]

theorem pyReplace_double (U S : String) (hU : U.data ≠ [])
    (hmid : U.data.isPrefixOf (' ' :: U.data) = false) :
    pyReplaceAux U.data S.data (U.data ++ (' ' :: U.data)) = S.data ++ (' ' :: S.data) := by
  rw [pyReplaceAux_head_match _ hU
    (by rw [ List.isPrefixOf_iff_prefix]; exact List.prefix_append _ _)]
  rw [List.drop_left]
  rw [pyReplaceAux_cons_neg _ (by simp [hmid])]
  rw [pyReplaceAux_head_match _ hU
    (by rw [ List.isPrefixOf_iff_prefix])]
  rw [List.drop_length]
  rw [pyReplaceAux_no_match _ _ [] (fun i => by
    rw [List.drop_nil]
    obtain ⟨a, as, hU2⟩ : ∃ a as, U.data = a :: as := by
      cases hU3 : U.data with
      | nil => exact absurd hU3 hU
      | cons a as => exact ⟨a, as, rfl⟩
    rw [hU2]
    simp)]
  simp

/-- Witness for C9: the duplicated URL `https://viralbox.in/a` sent
twice in one keep-mode message is shortened twice (two records, two
call rounds in order) and BOTH text occurrences are replaced by the
SECOND round's short URL only. -/
theorem C9_duplicate_url_rounds_witness :
    (process_message
        ⟨fun j => some ⟨200, some "success",
          some (if j = 0 then "https://viralbox.in/s0" else "https://viralbox.in/s1"),
          none, none⟩⟩
        ⟨[⟨"https://long.example/x", "https://viralbox.in/a"⟩], fxApis,
         fun u => if u = 7 then some ⟨none, none, some true⟩ else none⟩
        ⟨5, 7, none, "https://viralbox.in/a https://viralbox.in/a", none, ""⟩).trace =
      [Event.findLong "https://viralbox.in/a",
       Event.shortenCall "https://long.example/x",
       Event.save "https://long.example/x" "https://viralbox.in/s0",
       Event.findLong "https://viralbox.in/a",
       Event.shortenCall "https://long.example/x",
       Event.save "https://long.example/x" "https://viralbox.in/s1"] ∧
    (process_message
        ⟨fun j => some ⟨200, some "success",
          some (if j = 0 then "https://viralbox.in/s0" else "https://viralbox.in/s1"),
          none, none⟩⟩
        ⟨[⟨"https://long.example/x", "https://viralbox.in/a"⟩], fxApis,
         fun u => if u = 7 then some ⟨none, none, some true⟩ else none⟩
        ⟨5, 7, none, "https://viralbox.in/a https://viralbox.in/a", none, ""⟩).store.links =
      [⟨"https://long.example/x", "https://viralbox.in/a"⟩,
       ⟨"https://long.example/x", "https://viralbox.in/s0"⟩,
       ⟨"https://long.example/x", "https://viralbox.in/s1"⟩] ∧
    (process_message
        ⟨fun j => some ⟨200, some "success",
          some (if j = 0 then "https://viralbox.in/s0" else "https://viralbox.in/s1"),
          none, none⟩⟩
        ⟨[⟨"https://long.example/x", "https://viralbox.in/a"⟩], fxApis,
         fun u => if u = 7 then some ⟨none, none, some true⟩ else none⟩
        ⟨5, 7, none, "https://viralbox.in/a https://viralbox.in/a", none, ""⟩).output =
      [Outgoing.msg 5 "https://viralbox.in/s1 https://viralbox.in/s1"] := by
  have h := C9_duplicate_url_rounds
      ⟨fun j => some ⟨200, some "success",
        some (if j = 0 then "https://viralbox.in/s0" else "https://viralbox.in/s1"),
        none, none⟩⟩
      ⟨[⟨"https://long.example/x", "https://viralbox.in/a"⟩], fxApis,
       fun u => if u = 7 then some ⟨none, none, some true⟩ else none⟩
      ⟨5, 7, none, "https://viralbox.in/a https://viralbox.in/a", none, ""⟩
      "https://viralbox.in/a" "https://long.example/x" 2
      (fun j => if j = 0 then "https://viralbox.in/s0" else "https://viralbox.in/s1")
      (by decide) (by decide) (by decide) (by decide) (by decide) (by decide) (by decide)
      (by decide) (by decide)
  have heval : pyReplace "https://viralbox.in/a https://viralbox.in/a"
      "https://viralbox.in/a" "https://viralbox.in/s1" =
      "https://viralbox.in/s1 https://viralbox.in/s1" := by
    show String.mk (pyReplaceAux ("https://viralbox.in/a").data ("https://viralbox.in/s1").data
      ("https://viralbox.in/a https://viralbox.in/a").data) = _
    rw [show ("https://viralbox.in/a https://viralbox.in/a").data =
      ("https://viralbox.in/a").data ++ (' ' :: ("https://viralbox.in/a").data) from by decide]
    rw [pyReplace_double "https://viralbox.in/a" "https://viralbox.in/s1"
      (by decide) (by decide)]
    decide
  refine ⟨h.1.trans (by decide), h.2.1.trans (by decide), ?_⟩
  have h4 := h.2.2.2 (by decide)
  rw [h4]
  rw [show ((fun j => if j = 0 then "https://viralbox.in/s0" else "https://viralbox.in/s1")
    (2 - 1) : String) = "https://viralbox.in/s1" from by decide]
  rw [heval]
